import Mathlib

/-!
Verification of the IOStorM asynchronous database access layer.

Shallow embedding of the Python source under `src/core/`:
- `db_exceptions.py` / `db_utils.py`: `exception_wrapper` and the named exception kinds
- `db_connection.py`: `DBConnection.execute_command_async` (batch drain loop)
- `query_builder.py`: `QueryBuilder.columns_to_dict`, `build_clause`, `build_pk_clause`
- `sql_query_builder.py`: `SQLQueryBuilder._build_params_list`
- `db_entity.py`: `DBEntity.create`, `DBEntity.get_by_pk` (sync path)
- `async_controller.py` / `db_utils.py`: `run_sync` / `get_sync_result`
- `ddl_utils/exist_condition_patcher.py`: `ExistConditionPatcher`, `create_patch`

Python values are embedded as an inductive `PyValue`; a fallible Python call is a
`PyResult`: either a returned value or a raised exception carrying the exception
class name and the message text (`args[0]`).
-/

namespace IOStorM

/-- A Python value, restricted to the shapes this layer stores in rows and
column mappings: `None`, integers and strings. -/
inductive PyValue where
  | none : PyValue
  | int : Int → PyValue
  | str : String → PyValue
  deriving DecidableEq, Repr

/-- Outcome of a fallible Python call: a value, or a raised exception carrying
the exception class name and the message text (`args[0]`). -/
inductive PyResult (α : Type) where
  | ok : α → PyResult α
  | exc : String → String → PyResult α
  deriving DecidableEq, Repr

/-- Python whitespace characters recognised by `str.strip()` (ASCII range). -/
def pyIsSpace (c : Char) : Bool :=
  c = ' ' || c = '\t' || c = '\n' || c = '\r' || c = '\x0b' || c = '\x0c'

/-- Embeds Python `str.strip()`: removes leading and trailing whitespace. -/
def pyStrip (s : String) : String :=
  String.mk (((s.data.dropWhile pyIsSpace).reverse.dropWhile pyIsSpace).reverse)

/-- Embeds `exception_wrapper` from `db_exceptions.py` (lines 42-72; the copy in
`db_utils.py` lines 146-173 is textually identical).  The Python body is

    result = []
    try:
        result = yield function(**kwargs)
    except exception_type as e:
        s = str(e.args[0]).strip()
        if not message_validator(s):
            raise
    return result

The wrapped call is embedded as its outcome `opResult`; `except exception_type`
is matched by exception class name. -/
def exception_wrapper {α : Type} (exception_type : String)
    (message_validator : String → Bool) (opResult : PyResult (List α)) :
    PyResult (List α) :=
  match opResult with
  | .ok v => .ok v
  | .exc ty msg =>
    if ty = exception_type then
      if message_validator (pyStrip msg) then .ok [] else .exc ty msg
    else .exc ty msg

end IOStorM

namespace IOStorM

/-- C2 counterexample: the claim says an exception of the matched type whose
message does NOT satisfy the predicate propagates unchanged.  The code applies
the predicate to the whitespace-stripped message (`str(e.args[0]).strip()`), so
the message `" already exists "` — which fails the predicate `s == "already
exists"` — is nevertheless masked to an empty result. -/
theorem exception_wrapper_validates_stripped_message :
    ((fun s => s == "already exists") " already exists ") = false
    ∧ exception_wrapper "ProgrammingError" (fun s => s == "already exists")
        (PyResult.exc "ProgrammingError" " already exists ")
      = PyResult.ok ([] : List PyValue) := by
  constructor
  · decide
  · decide

/-- C2 (amended): `exception_wrapper` returns a successful result unchanged;
re-raises an exception of a non-matching class unchanged; and for an exception
of the matching class it masks to the empty result exactly when the predicate
accepts the whitespace-stripped message text, re-raising unchanged otherwise. -/
theorem exception_wrapper_spec {α : Type} (E ty msg : String) (P : String → Bool)
    (v : List α) :
    exception_wrapper E P (PyResult.ok v) = PyResult.ok v
    ∧ (P (pyStrip msg) = true →
        exception_wrapper E P (PyResult.exc E msg : PyResult (List α))
          = PyResult.ok [])
    ∧ (P (pyStrip msg) = false →
        exception_wrapper E P (PyResult.exc E msg : PyResult (List α))
          = PyResult.exc E msg)
    ∧ (ty ≠ E →
        exception_wrapper E P (PyResult.exc ty msg : PyResult (List α))
          = PyResult.exc ty msg) := by
  refine ⟨rfl, ?_, ?_, ?_⟩
  · intro h
    simp [exception_wrapper, h]
  · intro h
    simp [exception_wrapper, h]
  · intro h
    simp [exception_wrapper, h]

/-- C2 witness: the amended specification applied at concrete inputs — a
successful call, a masked duplicate-create error, a non-matching message and a
non-matching exception class. -/
theorem exception_wrapper_spec_witness :
    exception_wrapper "ProgrammingError" (fun s => s == "already exists")
        (PyResult.ok [PyValue.int 1]) = PyResult.ok [PyValue.int 1]
    ∧ exception_wrapper "ProgrammingError" (fun s => s == "already exists")
        (PyResult.exc "ProgrammingError" "already exists" : PyResult (List PyValue))
      = PyResult.ok []
    ∧ exception_wrapper "ProgrammingError" (fun s => s == "already exists")
        (PyResult.exc "ProgrammingError" "disk full" : PyResult (List PyValue))
      = PyResult.exc "ProgrammingError" "disk full"
    ∧ exception_wrapper "ProgrammingError" (fun s => s == "already exists")
        (PyResult.exc "ValueError" "already exists" : PyResult (List PyValue))
      = PyResult.exc "ValueError" "already exists" :=
  ⟨(exception_wrapper_spec "ProgrammingError" "ValueError" "already exists"
      (fun s => s == "already exists") [PyValue.int 1]).1,
   (exception_wrapper_spec "ProgrammingError" "ValueError" "already exists"
      (fun s => s == "already exists") ([] : List PyValue)).2.1 (by decide),
   (exception_wrapper_spec "ProgrammingError" "ValueError" "disk full"
      (fun s => s == "already exists") ([] : List PyValue)).2.2.1 (by decide),
   (exception_wrapper_spec "ProgrammingError" "ValueError" "already exists"
      (fun s => s == "already exists") ([] : List PyValue)).2.2.2 (by decide)⟩

end IOStorM

namespace IOStorM

/-- Message built by `MissingArgsException.__init__` in `core/libs/exceptions.py`
(lines 28-37) when called with a single argument. -/
def missingArgsMessage (expected : String) : String :=
  "Missing function arguments: " ++ expected

/-- Embeds `run_sync` from `core/async_controller.py` (lines 24-51).  The Python
body is

    if not func and not future:
        raise MissingArgsException('Callable or Future')
    ioloop = IOLoop.instance()
    future = future or func(*args, **kwargs)
    ioloop.add_future(future, lambda _: ioloop.stop())
    ioloop.start()
    return future.result()

The deferred handle is embedded as its resolved outcome (`future.result()`
returns the value or re-raises the stored failure); driving the loop is the
identity on that outcome. -/
def run_sync {α : Type} (func : Option (Unit → PyResult α))
    (future : Option (PyResult α)) : PyResult α :=
  match func, future with
  | none, none => PyResult.exc "MissingArgsException" (missingArgsMessage "Callable or Future")
  | _, some fut => fut
  | some f, none => f ()

/-- Embeds `get_sync_result` from `db_utils.py` (lines 35-61); its body is
textually identical to `run_sync` in `core/async_controller.py`. -/
def get_sync_result {α : Type} (func : Option (Unit → PyResult α))
    (future : Option (PyResult α)) : PyResult α :=
  match func, future with
  | none, none => PyResult.exc "MissingArgsException" (missingArgsMessage "Callable or Future")
  | _, some fut => fut
  | some f, none => f ()

/-- Embeds the Python truthiness test `v not in (None, '')` used by
`columns_to_dict`: true exactly when the value equals `None` or the empty
string. -/
def pyInNoneEmpty (v : PyValue) : Bool :=
  v == PyValue.none || v == PyValue.str ""

/-- Embeds `QueryBuilder.columns_to_dict` from `query_builder.py` (lines
11-34).  `obj` is attribute lookup on the source object; `columns` is the list
of `(name, column)` pairs (`c[0]` is the name).  The Python body is

    params = {c[0]: getattr(obj, c[0]) for c in columns}
    if not filtered:
        return params
    return {k: v for k, v in params.items() if v not in (None, '')}
-/
def columns_to_dict {γ : Type} (obj : String → PyValue)
    (columns : List (String × γ)) (filtered : Bool := true) :
    List (String × PyValue) :=
  let params := columns.map (fun c => (c.1, obj c.1))
  if !filtered then params
  else params.filter (fun kv => !(pyInNoneEmpty kv.2))

/-- Message built by `IncorrectResultSizeException.__init__` in
`db_exceptions.py` (lines 5-21). -/
def incorrectResultSizeMessage (received expected : Nat) : String :=
  "Result set does not contain exactly " ++ toString expected
    ++ " result(s). Received " ++ toString received ++ " items."

/-- Embeds the synchronous tail of `DBEntity.get_by_pk` from `db_entity.py`
(lines 151-181), applied to the materialized select result.  The Python body is

    if not result:
        return None
    expected_result_size = 1
    if len(result) != expected_result_size:
        raise IncorrectResultSizeException(len(result), expected_result_size)
    return result[0]
-/
def get_by_pk_sync {α : Type} (result : List α) : PyResult (Option α) :=
  if result.length = 0 then PyResult.ok Option.none
  else if result.length ≠ 1 then
    PyResult.exc "IncorrectResultSizeException" (incorrectResultSizeMessage result.length 1)
  else PyResult.ok result.head?

/-- A SQLAlchemy table as this layer consumes it: a name and the ordered
primary-key column names. -/
structure SQLATable where
  name : String
  pkColumns : List String
  deriving DecidableEq, Repr

/-- The structured insert statement produced by `DBEntity.create`: the table,
the value mapping and the RETURNING column list. -/
structure InsertCommand where
  table : String
  values : List (String × PyValue)
  returningCols : List String
  deriving DecidableEq, Repr

/-- Embeds `DBEntity.create` from `db_entity.py` (lines 32-54) up to the point
the structured insert command is handed to the Command Executor:

    command = cls.__table__.insert().values(**kwargs)
    returning = returning if len(returning) else cls.__table__.primary_key.columns
    command = command.returning(*returning)
-/
def DBEntity.create (table : SQLATable) (returning : List String)
    (kwargs : List (String × PyValue)) : InsertCommand :=
  let returningEff := if returning.length ≠ 0 then returning else table.pkColumns
  { table := table.name, values := kwargs, returningCols := returningEff }

end IOStorM

namespace IOStorM

/-- C9: supplying neither a callable nor a deferred handle to the Sync Bridge
(`run_sync` in `async_controller.py`, `get_sync_result` in `db_utils.py`) fails
with a MissingArgsException whose message names what was expected ("Callable or
Future"); when a handle is supplied its resolved value is returned or its
failure re-raised unchanged. -/
theorem run_sync_spec {α : Type} (r : PyResult α) (f : Unit → PyResult α) :
    run_sync (none : Option (Unit → PyResult α)) none
      = PyResult.exc "MissingArgsException" "Missing function arguments: Callable or Future"
    ∧ run_sync none (some r) = r
    ∧ run_sync (some f) (some r) = r
    ∧ get_sync_result (none : Option (Unit → PyResult α)) none
      = PyResult.exc "MissingArgsException" "Missing function arguments: Callable or Future"
    ∧ get_sync_result none (some r) = r
    ∧ get_sync_result (some f) (some r) = r :=
  ⟨rfl, rfl, rfl, rfl, rfl, rfl⟩

/-- C7: `columns_to_dict` with filtering disabled maps every listed column to
its attribute value; with filtering enabled it keeps exactly the pairs whose
value is neither `None` nor the empty string, values unchanged. -/
theorem columns_to_dict_spec {γ : Type} (obj : String → PyValue)
    (columns : List (String × γ)) (k : String) (v : PyValue) :
    columns_to_dict obj columns false = columns.map (fun c => (c.1, obj c.1))
    ∧ columns_to_dict obj columns true
      = (columns_to_dict obj columns false).filter (fun kv => !(pyInNoneEmpty kv.2))
    ∧ ((k, v) ∈ columns_to_dict obj columns true ↔
        ((k, v) ∈ columns_to_dict obj columns false ∧ pyInNoneEmpty v = false)) := by
  refine ⟨rfl, rfl, ?_⟩
  simp [columns_to_dict, List.mem_filter]

/-- C8 counterexample: the claim says a sync by-primary-key lookup whose select
returns a number of rows different from 1 raises IncorrectResultSizeException;
but for 0 rows (`0 ≠ 1`) the code returns `None` without raising
(`if not result: return None` precedes the size check). -/
theorem get_by_pk_sync_zero_rows_returns_none :
    get_by_pk_sync ([] : List PyValue) = PyResult.ok Option.none
    ∧ (0 : Nat) ≠ 1 :=
  ⟨rfl, by decide⟩

/-- C8 (amended): the sync by-primary-key lookup returns `None` when the select
returns no rows; returns the single row's entity when exactly one row is
returned; and raises IncorrectResultSizeException carrying the received and
expected (1) counts when two or more rows are returned. -/
theorem get_by_pk_sync_spec {α : Type} (result : List α) (r : α) :
    get_by_pk_sync ([] : List α) = PyResult.ok Option.none
    ∧ get_by_pk_sync [r] = PyResult.ok (some r)
    ∧ (2 ≤ result.length →
        get_by_pk_sync result
          = PyResult.exc "IncorrectResultSizeException"
              (incorrectResultSizeMessage result.length 1)) := by
  refine ⟨rfl, by simp [get_by_pk_sync], ?_⟩
  intro h
  have h0 : ¬(result.length = 0) := by omega
  have h1 : result.length ≠ 1 := by omega
  simp [get_by_pk_sync, h0, h1]

/-- C8 witness: the amended specification applied to a two-row result set. -/
theorem get_by_pk_sync_spec_witness :
    (2 ≤ ([PyValue.int 1, PyValue.int 2] : List PyValue).length)
    ∧ get_by_pk_sync ([PyValue.int 1, PyValue.int 2] : List PyValue)
      = PyResult.exc "IncorrectResultSizeException"
          "Result set does not contain exactly 1 result(s). Received 2 items." :=
  ⟨by decide,
   (get_by_pk_sync_spec [PyValue.int 1, PyValue.int 2] (PyValue.int 1)).2.2 (by decide)⟩

/-- C10: `DBEntity.create` populates the insert's RETURNING clause with the
table's primary-key columns when the caller supplies an empty `returning`
collection, and with exactly the supplied columns otherwise; the value mapping
and table are passed through unchanged. -/
theorem create_returning_spec (table : SQLATable) (returning : List String)
    (kwargs : List (String × PyValue)) :
    (DBEntity.create table [] kwargs).returningCols = table.pkColumns
    ∧ (returning ≠ [] →
        (DBEntity.create table returning kwargs).returningCols = returning)
    ∧ (DBEntity.create table returning kwargs).values = kwargs
    ∧ (DBEntity.create table returning kwargs).table = table.name := by
  refine ⟨rfl, ?_, rfl, rfl⟩
  intro h
  have hl : returning.length ≠ 0 := by
    simpa using h
  simp [DBEntity.create, hl]

/-- C10 witness: a non-empty `returning` list is used as supplied; an empty one
falls back to the table's primary-key columns. -/
theorem create_returning_spec_witness :
    (["name"] : List String) ≠ []
    ∧ (DBEntity.create ⟨"user", ["id"]⟩ ["name"] []).returningCols = ["name"] :=
  ⟨by decide, (create_returning_spec ⟨"user", ["id"]⟩ ["name"] []).2.1 (by decide)⟩

end IOStorM

namespace IOStorM

/-- Embeds Python `sep.join(parts)`. -/
def pyJoin (sep : String) : List String → String
  | [] => ""
  | [x] => x
  | x :: y :: xs => x ++ sep ++ pyJoin sep (y :: xs)

/-- The comparator functions passed to `build_clause` (`sqlalchemy.and_` /
`sqlalchemy.or_`). -/
inductive SQLComparator where
  | and : SQLComparator
  | or : SQLComparator
  deriving DecidableEq, Repr

/-- The boolean clause list that `build_clause` returns: the comparator and the
column-name/value equality pairs in construction order. -/
structure Clause where
  comparator : SQLComparator
  pairs : List (String × PyValue)
  deriving DecidableEq, Repr

/-- Python dict lookup `kwargs[k]` over a keyword mapping embedded as an
association list with distinct keys (defaults to `None` when absent; every tied
call site checks presence first). -/
def dictGet (d : List (String × PyValue)) (k : String) : PyValue :=
  match d.find? (fun kv => kv.1 == k) with
  | some kv => kv.2
  | none => PyValue.none

/-- Python membership test `k in kwargs` over the embedded keyword mapping. -/
def hasKey (d : List (String × PyValue)) (k : String) : Bool :=
  d.any (fun kv => kv.1 == k)

/-- Embeds `QueryBuilder.build_clause` from `query_builder.py` (lines 36-53):

    return comparator(*(column == kwargs[column.name] for column in columns))

The columns are iterated in the order of the supplied collection. -/
def build_clause (comparator : SQLComparator) (columns : List String)
    (kwargs : List (String × PyValue)) : Clause :=
  ⟨comparator, columns.map (fun c => (c, dictGet kwargs c))⟩

/-- Renders one `column == value` comparison the way the postgresql dialect
compiles it with literal binds (cf. the expectations in
`test_query_builder_class.py`): `None` compiles to `IS NULL`. -/
def renderComparand : String × PyValue → String
  | (c, PyValue.none) => c ++ " IS NULL"
  | (c, PyValue.int n) => c ++ " = " ++ toString n
  | (c, PyValue.str s) => c ++ " = '" ++ s ++ "'"

/-- SQL text of a comparator join. -/
def comparatorText : SQLComparator → String
  | SQLComparator.and => " AND "
  | SQLComparator.or => " OR "

/-- Compiles a built clause to SQL text (`QueryBuilder.get_compiled_command`
applied to a `BooleanClauseList`). -/
def compile_clause (cl : Clause) : String :=
  pyJoin (comparatorText cl.comparator) (cl.pairs.map renderComparand)

/-- Message built by `PartialPrimaryKeyException.__init__` in
`db_exceptions.py` (lines 24-30). -/
def partialPrimaryKeyMessage (missing_keys : List String) : String :=
  "Missing primary key fields: " ++ pyJoin ", " missing_keys

/-- Embeds `QueryBuilder.build_pk_clause` from `query_builder.py` (lines
55-76):

    missing_keys = [column.name for column in table.primary_key.columns
                    if column.name not in kwargs]
    if len(missing_keys) != 0:
        raise PartialPrimaryKeyException(missing_keys=missing_keys)
    return cls.build_clause(sqlalchemy.and_, table.primary_key.columns, **kwargs)
-/
def build_pk_clause (table : SQLATable) (kwargs : List (String × PyValue)) :
    PyResult Clause :=
  let missing_keys := table.pkColumns.filter (fun c => !(hasKey kwargs c))
  if missing_keys.length ≠ 0 then
    PyResult.exc "PartialPrimaryKeyException" (partialPrimaryKeyMessage missing_keys)
  else
    PyResult.ok (build_clause SQLComparator.and table.pkColumns kwargs)

/-- Embeds `SQLQueryBuilder._build_params_list` from `sql_query_builder.py`
(lines 18-27):

    return separator.join('{key} = %({key})s'.format(key=k)
                          for k in sorted(params_dict.keys()))
-/
def build_params_list (separator : String)
    (params_dict : List (String × PyValue)) : String :=
  pyJoin separator
    (((params_dict.map Prod.fst).insertionSort (· ≤ ·)).map
      (fun k => k ++ " = %(" ++ k ++ ")s"))

end IOStorM

namespace IOStorM

/-- C5 counterexample: the claim says the compiled clause lists columns in
lexicographically sorted name order, so that the mapping
`{column_1: 3, column_2: 'x'}` compiles to `column_1 = 3 AND column_2 = 'x'`.
`build_clause` iterates the supplied column collection in its own order: with
the collection `[column_2, column_1]` the same mapping compiles to
`column_2 = 'x' AND column_1 = 3`. -/
theorem build_clause_collection_order_counterexample :
    compile_clause (build_clause SQLComparator.and ["column_2", "column_1"]
        [("column_1", PyValue.int 3), ("column_2", PyValue.str "x")])
      = "column_2 = 'x' AND column_1 = 3"
    ∧ ("column_2 = 'x' AND column_1 = 3" : String)
      ≠ "column_1 = 3 AND column_2 = 'x'" := by
  constructor
  · rfl
  · decide

/-- C5 (amended): `build_clause` lists columns in the order of the supplied
column collection — sorted by name exactly when the collection is; the
string-based builder's parameter lists (`_build_params_list`) always list the
mapping's keys in lexicographically sorted order; and the spec's example
compiles as claimed when the collection is in sorted order, joined with AND. -/
theorem build_clause_order_spec (comparator : SQLComparator)
    (columns : List String) (kwargs : List (String × PyValue))
    (separator : String) (params_dict : List (String × PyValue)) :
    (build_clause comparator columns kwargs).pairs.map Prod.fst = columns
    ∧ (∃ ks, List.Perm ks (params_dict.map Prod.fst)
        ∧ List.Sorted (· ≤ ·) ks
        ∧ build_params_list separator params_dict
          = pyJoin separator (ks.map (fun k => k ++ " = %(" ++ k ++ ")s")))
    ∧ (List.Sorted (· ≤ ·) columns →
        List.Sorted (· ≤ ·) ((build_clause comparator columns kwargs).pairs.map Prod.fst))
    ∧ compile_clause (build_clause SQLComparator.and ["column_1", "column_2"]
        [("column_1", PyValue.int 3), ("column_2", PyValue.str "x")])
      = "column_1 = 3 AND column_2 = 'x'" := by
  have hmap : (build_clause comparator columns kwargs).pairs.map Prod.fst = columns := by
    simp [build_clause, Function.comp_def]
  refine ⟨hmap, ?_, ?_, rfl⟩
  · exact ⟨(params_dict.map Prod.fst).insertionSort (· ≤ ·),
      List.perm_insertionSort _ _, List.sorted_insertionSort _ _, rfl⟩
  · intro h
    rw [hmap]
    exact h

/-- Helper: a two-element string list is sorted when the underlying character
lists compare. -/
theorem sortedPairOfToListLe (a b : String) (h : a.toList ≤ b.toList) :
    List.Sorted (· ≤ ·) [a, b] := by
  simp only [List.sorted_cons, List.mem_singleton, forall_eq, List.sorted_singleton,
    and_true]
  exact ⟨String.le_iff_toList_le.mpr h, by simp, List.sorted_nil⟩

/-- C5 witness: the amended specification applied at a concrete collection and
mapping whose collection order is sorted. -/
theorem build_clause_order_spec_witness :
    List.Sorted (· ≤ ·) (["column_1", "column_2"] : List String)
    ∧ List.Sorted (· ≤ ·)
        ((build_clause SQLComparator.and ["column_1", "column_2"]
          [("column_1", PyValue.int 3), ("column_2", PyValue.str "x")]).pairs.map Prod.fst) :=
  ⟨sortedPairOfToListLe "column_1" "column_2" (by decide),
   (build_clause_order_spec SQLComparator.and ["column_1", "column_2"]
      [("column_1", PyValue.int 3), ("column_2", PyValue.str "x")] " AND "
      []).2.2.1 (sortedPairOfToListLe "column_1" "column_2" (by decide))⟩

/-- C6: `build_pk_clause` on a table with primary-key columns `[pk_a, pk_b]`
and a mapping supplying `pk_a` but not `pk_b` fails with a
PartialPrimaryKeyException whose message names exactly `pk_b`; when every
primary-key column is supplied it returns the AND-joined equality clause
without error. -/
theorem build_pk_clause_spec (a b tname : String)
    (table : SQLATable) (kwargs : List (String × PyValue)) :
    (hasKey kwargs a = true → hasKey kwargs b = false →
      build_pk_clause ⟨tname, [a, b]⟩ kwargs
        = PyResult.exc "PartialPrimaryKeyException"
            ("Missing primary key fields: " ++ b))
    ∧ ((∀ c ∈ table.pkColumns, hasKey kwargs c = true) →
        build_pk_clause table kwargs
          = PyResult.ok (build_clause SQLComparator.and table.pkColumns kwargs)) := by
  constructor
  · intro ha hb
    simp only [build_pk_clause, List.filter, ha, hb, Bool.not_true, Bool.not_false]
    simp [partialPrimaryKeyMessage, pyJoin]
  · intro h
    have hnil : table.pkColumns.filter (fun c => !(hasKey kwargs c)) = [] := by
      rw [List.filter_eq_nil_iff]
      intro c hc
      simp [h c hc]
    simp [build_pk_clause, hnil]

/-- C6 witness: the specification applied to the table `(pk_a, pk_b)` with only
`pk_a` supplied (fails naming `pk_b`) and with both supplied (succeeds with the
AND-joined clause). -/
theorem build_pk_clause_spec_witness :
    (hasKey [("pk_a", PyValue.int 1)] "pk_a" = true)
    ∧ (hasKey [("pk_a", PyValue.int 1)] "pk_b" = false)
    ∧ build_pk_clause ⟨"t", ["pk_a", "pk_b"]⟩ [("pk_a", PyValue.int 1)]
      = PyResult.exc "PartialPrimaryKeyException" "Missing primary key fields: pk_b"
    ∧ build_pk_clause ⟨"t", ["pk_a", "pk_b"]⟩
        [("pk_a", PyValue.int 1), ("pk_b", PyValue.int 2)]
      = PyResult.ok (build_clause SQLComparator.and ["pk_a", "pk_b"]
          [("pk_a", PyValue.int 1), ("pk_b", PyValue.int 2)]) :=
  ⟨by decide, by decide,
   (build_pk_clause_spec "pk_a" "pk_b" "t" ⟨"t", ["pk_a", "pk_b"]⟩
      [("pk_a", PyValue.int 1)]).1 (by decide) (by decide),
   (build_pk_clause_spec "pk_a" "pk_b" "t" ⟨"t", ["pk_a", "pk_b"]⟩
      [("pk_a", PyValue.int 1), ("pk_b", PyValue.int 2)]).2 (by decide)⟩

end IOStorM

namespace IOStorM

/-- The transient cursor state of one command execution in
`DBConnection.execute_command_async` (`db_connection.py` lines 138-207): either
a result set holding the not-yet-fetched rows in cursor order, or the
cursor of a statement that produced no result set (DDL), for which any fetch
raises `ProgrammingError('no results to fetch')`. -/
inductive Cursor (ρ : Type) where
  | withRows : List ρ → Cursor ρ
  | noResultSet : Cursor ρ
  deriving DecidableEq, Repr

/-- Embeds `cursor.fetchmany(batch_size)`: up to `batchSize` rows from the
front of the remaining rows, or the driver error for a result-less cursor. -/
def fetchRaw {ρ : Type} : Cursor ρ → Nat → PyResult (List ρ)
  | Cursor.withRows rows, n => PyResult.ok (rows.take n)
  | Cursor.noResultSet, _ => PyResult.exc "ProgrammingError" "no results to fetch"

/-- The wrapped fetch performed by the drain loop of `execute_command_async`:

    results = yield exception_wrapper(
        function=gen.Task,
        message_validator=lambda s: s == 'no results to fetch',
        func=lambda callback: callback(cursor.fetchmany(db_config.batch_size)))
-/
def maskedFetch {ρ : Type} (cur : Cursor ρ) (batchSize : Nat) : PyResult (List ρ) :=
  exception_wrapper "ProgrammingError" (fun s => s == "no results to fetch")
    (fetchRaw cur batchSize)

/-- Embeds the batch-drain loop of `execute_command_async` on a result-set
cursor, returning the trace of fetch-call results (the final empty fetch
included) together with the accumulated converted rows:

    while True:
        results = yield exception_wrapper(...fetchmany(batch_size)...)
        if not results:
            break
        for result in results:
            ret_value = row_parser(result, cursor.description, **parser_kwargs)
            if not ret_value:
                continue
            ret_values.append(ret_value)

`keep` is Python truthiness of the converted row (`if not ret_value`); the
accumulator threading is unfolded into per-batch appends. -/
def drainRows {ρ β : Type} (batchSize : Nat) (rowParser : ρ → β)
    (keep : β → Bool) (remaining : List ρ) : List (List ρ) × List β :=
  if h : (remaining.take batchSize).isEmpty then ([remaining.take batchSize], [])
  else
    let results := remaining.take batchSize
    let rest := drainRows batchSize rowParser keep (remaining.drop batchSize)
    (results :: rest.1, (results.map rowParser).filter keep ++ rest.2)
termination_by remaining.length
decreasing_by
  simp only [List.isEmpty_iff, List.take_eq_nil_iff, not_or] at h
  obtain ⟨hb, hr⟩ := h
  have hl : 0 < remaining.length := List.length_pos.mpr hr
  have hbs : 0 < batchSize := Nat.pos_of_ne_zero hb
  simpa [List.length_drop] using Nat.sub_lt hl hbs

end IOStorM

namespace IOStorM

/-- C1: draining a 5-row cursor with batch size 2 performs fetch calls
returning chunks of sizes [2, 2, 1, 0]; the loop terminates exactly at the
first empty batch (the trace ends with the empty fetch, every earlier fetch is
non-empty); the materialized result is the 5 converted rows in original cursor
order; and the result-less (DDL) cursor's fetch failure is masked by the
wrapper to a normal "no rows" outcome. -/
theorem execute_command_drain_spec {ρ β : Type} (rows : List ρ)
    (rowParser : ρ → β) (keep : β → Bool)
    (h5 : rows.length = 5) (hk : ∀ r ∈ rows, keep (rowParser r) = true) :
    ((drainRows 2 rowParser keep rows).1.map List.length = [2, 2, 1, 0])
    ∧ ((drainRows 2 rowParser keep rows).1.getLast? = some [])
    ∧ (∀ call ∈ (drainRows 2 rowParser keep rows).1.dropLast, call ≠ [])
    ∧ ((drainRows 2 rowParser keep rows).2 = rows.map rowParser)
    ∧ maskedFetch (Cursor.noResultSet : Cursor ρ) 2 = PyResult.ok [] := by
  rcases rows with _ | ⟨a, rows⟩
  · simp at h5
  rcases rows with _ | ⟨b, rows⟩
  · simp at h5
  rcases rows with _ | ⟨c, rows⟩
  · simp at h5
  rcases rows with _ | ⟨d, rows⟩
  · simp at h5
  rcases rows with _ | ⟨e, rows⟩
  · simp at h5
  rcases rows with _ | ⟨f, rows⟩
  case cons.cons.cons.cons.cons.cons =>
    simp at h5
  have ka : keep (rowParser a) = true := hk a (by simp)
  have kb : keep (rowParser b) = true := hk b (by simp)
  have kc : keep (rowParser c) = true := hk c (by simp)
  have kd : keep (rowParser d) = true := hk d (by simp)
  have ke : keep (rowParser e) = true := hk e (by simp)
  have htr : (drainRows 2 rowParser keep [a, b, c, d, e]).1
      = [[a, b], [c, d], [e], []] := by
    simp [drainRows]
  have hv : (drainRows 2 rowParser keep [a, b, c, d, e]).2
      = [rowParser a, rowParser b, rowParser c, rowParser d, rowParser e] := by
    simp [drainRows, ka, kb, kc, kd, ke]
  refine ⟨?_, ?_, ?_, ?_, rfl⟩
  · rw [htr]
    rfl
  · rw [htr]
    rfl
  · rw [htr]
    simp
  · rw [hv]
    simp

/-- C1 witness: the drain specification applied to a concrete 5-row cursor
with the converter adding 10 to each row. -/
theorem execute_command_drain_spec_witness :
    ([0, 1, 2, 3, 4] : List Nat).length = 5
    ∧ (∀ r ∈ ([0, 1, 2, 3, 4] : List Nat), (fun _ : Nat => true) ((fun r => r + 10) r) = true)
    ∧ (drainRows 2 (fun r => r + 10) (fun _ => true) ([0, 1, 2, 3, 4] : List Nat)).1.map
        List.length = [2, 2, 1, 0]
    ∧ (drainRows 2 (fun r => r + 10) (fun _ => true) ([0, 1, 2, 3, 4] : List Nat)).2
      = [10, 11, 12, 13, 14] :=
  ⟨by decide, by decide,
   (execute_command_drain_spec [0, 1, 2, 3, 4] (fun r => r + 10) (fun _ => true)
      (by decide) (by decide)).1,
   by
    rw [(execute_command_drain_spec [0, 1, 2, 3, 4] (fun r => r + 10) (fun _ => true)
      (by decide) (by decide)).2.2.2.1]
    decide⟩

end IOStorM

namespace IOStorM

/-- Embeds Python `sep.join(parts)` over character lists. -/
def pyJoinChars (sep : List Char) : List (List Char) → List Char
  | [] => []
  | [w] => w
  | w :: x :: ws => w ++ sep ++ pyJoinChars sep (x :: ws)

/-- ASCII range test for the regex class `[A-Z]` used by `split_camel_case`. -/
def isAsciiUpper (c : Char) : Bool :=
  'A' ≤ c && c ≤ 'Z'

/-- ASCII range test for the regex class `[a-z]` used by `split_camel_case`. -/
def isAsciiLower (c : Char) : Bool :=
  'a' ≤ c && c ≤ 'z'

/-- Python `str.upper()` on one ASCII character. -/
def pyToUpper (c : Char) : Char :=
  if isAsciiLower c then Char.ofNat (c.toNat - 32) else c

/-- Python `str.lower()` on one ASCII character. -/
def pyToLower (c : Char) : Char :=
  if isAsciiUpper c then Char.ofNat (c.toNat + 32) else c

/-- Embeds `ExistConditionPatcher.split_camel_case` from
`exist_condition_patcher.py` (lines 71-83):

    return re.findall('[A-Z][a-z]*', input_text)

each match is an upper-case letter followed by its run of lower-case letters;
characters outside a match are skipped. -/
def split_camel_case : List Char → List (List Char)
  | [] => []
  | c :: rest =>
    if isAsciiUpper c then
      (c :: rest.takeWhile isAsciiLower) :: split_camel_case (rest.dropWhile isAsciiLower)
    else split_camel_case rest
termination_by s => s.length
decreasing_by
  · have hd : (rest.dropWhile isAsciiLower).length ≤ rest.length :=
      (List.dropWhile_sublist _).length_le
    simp
    omega
  · simp

/-- The `ConditionVariants` enum of `exist_condition_patcher.py` (lines
29-31). -/
inductive ConditionVariants where
  | if_not_exists : ConditionVariants
  | if_exists : ConditionVariants
  deriving DecidableEq, Repr

/-- The enum member values: `'IF NOT EXISTS'` and `'IF EXISTS'`. -/
def ConditionVariants.value : ConditionVariants → List Char
  | if_not_exists => "IF NOT EXISTS".data
  | if_exists => "IF EXISTS".data

/-- Python substring test `needle in haystack`. -/
def containsSub (needle haystack : List Char) : Bool :=
  decide (needle <:+: haystack)

/-- The state `ExistConditionPatcher.__init__` (lines 85-124) stores on the
patcher: the injection variant, the compiler method name, the search string and
the replacement string.  (`self.element` and the monkey-patched `check_first`
setter carry no text and are not modeled.) -/
structure ExistConditionPatcher where
  variant : ConditionVariants
  method : List Char
  regex : List Char
  condition : List Char
  deriving DecidableEq, Repr

/-- Embeds `ExistConditionPatcher.__init__` from `exist_condition_patcher.py`
(lines 85-124):

    element_name = getattr(element, '__name__', '')
    if not element_name and (not method or not regex or not replacement):
        raise Exception('Operation type could not be determined.')
    if variant:
        self.variant = variant
    elif 'Drop' in element_name:
        self.variant = ConditionVariants.if_exists
    elif 'Create' in element_name:
        self.variant = ConditionVariants.if_not_exists
    if not self.variant:
        raise Exception('Variant could not be determined')
    name_parts = self.split_camel_case(element_name)
    self.method = method or 'visit_{}'.format('_'.join(name_parts).lower())
    self.regex = regex or '{}'.format(' '.join(name_parts).upper())
    self.condition = replacement or '{} {}'.format(' '.join(name_parts).upper(), self.variant.value)

When neither branch assigns `self.variant`, reading it raises AttributeError. -/
def ExistConditionPatcher.init (element_name : List Char)
    (variant : Option ConditionVariants) (method regex replacement : List Char) :
    PyResult ExistConditionPatcher :=
  if element_name = [] ∧ (method = [] ∨ regex = [] ∨ replacement = []) then
    PyResult.exc "Exception" "Operation type could not be determined."
  else
    let variantSet :=
      match variant with
      | some v => some v
      | Option.none =>
        if containsSub "Drop".data element_name then some ConditionVariants.if_exists
        else if containsSub "Create".data element_name then some ConditionVariants.if_not_exists
        else Option.none
    match variantSet with
    | Option.none => PyResult.exc "AttributeError" "variant"
    | some v =>
      let name_parts := split_camel_case element_name
      PyResult.ok
        { variant := v
          method :=
            if method ≠ [] then method
            else "visit_".data ++ (pyJoinChars "_".data name_parts).map pyToLower
          regex :=
            if regex ≠ [] then regex
            else (pyJoinChars " ".data name_parts).map pyToUpper
          condition :=
            if replacement ≠ [] then replacement
            else (pyJoinChars " ".data name_parts).map pyToUpper ++ " ".data ++ v.value }

end IOStorM

namespace IOStorM

/-- Embeds the matching of `re.sub(pattern, repl, string, count)` for a literal
pattern: number of leftmost non-overlapping occurrences of `pat` in `s`. -/
def countOcc (pat : List Char) : List Char → Nat
  | [] => 0
  | c :: rest =>
    if pat ≠ [] ∧ pat <+: (c :: rest) then 1 + countOcc pat ((c :: rest).drop pat.length)
    else countOcc pat rest
termination_by s => s.length
decreasing_by
  · obtain ⟨hp, hpre⟩ := by assumption
    have h1 : 0 < pat.length := List.length_pos.mpr hp
    have h2 : pat.length ≤ (c :: rest).length := hpre.length_le
    simp only [List.length_drop]
    omega
  · simp

/-- The first (leftmost) occurrence of the literal pattern `pat` in `s`:
`some (pre, post)` with `s = pre ++ pat ++ post`, or `none`. -/
def findSplit (pat : List Char) : List Char → Option (List Char × List Char)
  | [] => Option.none
  | c :: rest =>
    if pat ≠ [] ∧ pat <+: (c :: rest) then some ([], (c :: rest).drop pat.length)
    else
      match findSplit pat rest with
      | some (pre, post) => some (c :: pre, post)
      | Option.none => Option.none
termination_by s => s.length
decreasing_by
  all_goals simp

/-- Embeds `re.sub(pattern, repl, string, count)` for a literal pattern:
replaces up to `count` leftmost non-overlapping occurrences of `pat` by
`repl`. -/
def replaceN (pat repl : List Char) : Nat → List Char → List Char
  | _, [] => []
  | 0, s => s
  | n + 1, c :: rest =>
    if pat ≠ [] ∧ pat <+: (c :: rest) then
      repl ++ replaceN pat repl n ((c :: rest).drop pat.length)
    else c :: replaceN pat repl (n + 1) rest
termination_by n s => s.length
decreasing_by
  · obtain ⟨hp, hpre⟩ := by assumption
    have h1 : 0 < pat.length := List.length_pos.mpr hp
    have h2 : pat.length ≤ (c :: rest).length := hpre.length_le
    simp only [List.length_drop]
    omega
  · simp

/-- Embeds `ExistConditionPatcher.inject_condition` (lines 59-69):

    return re.sub(self.regex, self.condition, command, re.S)

`re.S` (value 16) is passed positionally as `count`, not as `flags`, so at most
16 leftmost non-overlapping occurrences are replaced.  The derived keyword
phrases contain no regex metacharacters, so matching is literal. -/
def inject_condition (p : ExistConditionPatcher) (command : List Char) : List Char :=
  replaceN p.regex p.condition 16 command

/-- Embeds the compiler function installed by `create_patch` (lines 127-152):

    output = getattr(compiler, patcher.method)(element, **kw)
    if if_always or getattr(element, '_build_condition', False):
        output = patcher.inject_condition(output)
    return output

`output` is the unpatched compiler method's text; `build_condition` is the
statement's `_build_condition` flag (set by `set_build_condition`, default
unset). -/
def create_patch_compile (p : ExistConditionPatcher) (if_always build_condition : Bool)
    (output : List Char) : List Char :=
  if if_always || build_condition then inject_condition p output else output

/-- The DDL statement classes registered in `ELEMENTS_TO_PATCH`
(`exist_condition_patcher.py` lines 19-26). -/
inductive DDLElement where
  | createTable : DDLElement
  | createIndex : DDLElement
  | createSchema : DDLElement
  | dropTable : DDLElement
  | dropIndex : DDLElement
  | dropSchema : DDLElement
  deriving DecidableEq, Repr

/-- `__name__` of each registered DDL statement class. -/
def DDLElement.className : DDLElement → List Char
  | createTable => "CreateTable".data
  | createIndex => "CreateIndex".data
  | createSchema => "CreateSchema".data
  | dropTable => "DropTable".data
  | dropIndex => "DropIndex".data
  | dropSchema => "DropSchema".data

/-- The patcher state `ExistConditionPatcher.__init__` derives for each
registered DDL class when called with all defaults (as `enable_patches`
does). -/
def DDLElement.patcher : DDLElement → ExistConditionPatcher
  | createTable =>
    ⟨ConditionVariants.if_not_exists, "visit_create_table".data,
      "CREATE TABLE".data, "CREATE TABLE IF NOT EXISTS".data⟩
  | createIndex =>
    ⟨ConditionVariants.if_not_exists, "visit_create_index".data,
      "CREATE INDEX".data, "CREATE INDEX IF NOT EXISTS".data⟩
  | createSchema =>
    ⟨ConditionVariants.if_not_exists, "visit_create_schema".data,
      "CREATE SCHEMA".data, "CREATE SCHEMA IF NOT EXISTS".data⟩
  | dropTable =>
    ⟨ConditionVariants.if_exists, "visit_drop_table".data,
      "DROP TABLE".data, "DROP TABLE IF EXISTS".data⟩
  | dropIndex =>
    ⟨ConditionVariants.if_exists, "visit_drop_index".data,
      "DROP INDEX".data, "DROP INDEX IF EXISTS".data⟩
  | dropSchema =>
    ⟨ConditionVariants.if_exists, "visit_drop_schema".data,
      "DROP SCHEMA".data, "DROP SCHEMA IF EXISTS".data⟩

/-- The keyword phrase suffix injected for each variant. -/
def ConditionVariants.suffixText : ConditionVariants → List Char
  | if_not_exists => " IF NOT EXISTS".data
  | if_exists => " IF EXISTS".data

end IOStorM

namespace IOStorM

/-- If the pattern does not occur in `s`, `replaceN` leaves `s` unchanged. -/
theorem replaceN_of_countOcc_zero (pat repl : List Char) :
    ∀ (s : List Char) (n : Nat), countOcc pat s = 0 → replaceN pat repl n s = s := by
  intro s
  induction s with
  | nil =>
    intro n h
    cases n <;> simp [replaceN]
  | cons c rest ih =>
    intro n h
    simp only [countOcc] at h
    by_cases g : pat ≠ [] ∧ pat <+: (c :: rest)
    · rw [if_pos g] at h
      omega
    · rw [if_neg g] at h
      cases n with
      | zero => simp [replaceN]
      | succ m =>
        simp only [replaceN]
        rw [if_neg g, ih (m + 1) h]

/-- A successful `findSplit` is a decomposition of `s` around the pattern. -/
theorem findSplit_decomp (pat : List Char) :
    ∀ (s pre post : List Char), findSplit pat s = some (pre, post) →
      s = pre ++ pat ++ post := by
  intro s
  induction s with
  | nil =>
    intro pre post h
    simp [findSplit] at h
  | cons c rest ih =>
    intro pre post h
    simp only [findSplit] at h
    by_cases g : pat ≠ [] ∧ pat <+: (c :: rest)
    · rw [if_pos g] at h
      simp only [Option.some.injEq, Prod.mk.injEq] at h
      obtain ⟨h1, h2⟩ := h
      subst h1
      subst h2
      obtain ⟨t, ht⟩ := g.2
      rw [← ht, List.drop_left]
      simp
    · rw [if_neg g] at h
      cases hfs : findSplit pat rest with
      | none =>
        rw [hfs] at h
        simp at h
      | some pp =>
        obtain ⟨pre', post'⟩ := pp
        rw [hfs] at h
        simp only [Option.some.injEq, Prod.mk.injEq] at h
        obtain ⟨h1, h2⟩ := h
        subst h1
        subst h2
        have hr := ih pre' post' hfs
        simp [hr]

/-- When the pattern occurs exactly once, nothing of it occurs after the first
occurrence. -/
theorem countOcc_post_zero (pat : List Char) :
    ∀ (s pre post : List Char), countOcc pat s = 1 →
      findSplit pat s = some (pre, post) → countOcc pat post = 0 := by
  intro s
  induction s with
  | nil =>
    intro pre post h1 h2
    simp [findSplit] at h2
  | cons c rest ih =>
    intro pre post h1 h2
    simp only [countOcc] at h1
    simp only [findSplit] at h2
    by_cases g : pat ≠ [] ∧ pat <+: (c :: rest)
    · rw [if_pos g] at h1 h2
      simp only [Option.some.injEq, Prod.mk.injEq] at h2
      obtain ⟨h3, h4⟩ := h2
      subst h4
      omega
    · rw [if_neg g] at h1 h2
      cases hfs : findSplit pat rest with
      | none =>
        rw [hfs] at h2
        simp at h2
      | some pp =>
        obtain ⟨pre', post'⟩ := pp
        rw [hfs] at h2
        simp only [Option.some.injEq, Prod.mk.injEq] at h2
        obtain ⟨h3, h4⟩ := h2
        subst h4
        exact ih pre' post' h1 hfs

/-- With at least one unit of replacement budget, `replaceN` rewrites the first
occurrence and — when no further occurrence follows it — leaves the rest
unchanged. -/
theorem replaceN_succ_findSplit (pat repl : List Char) :
    ∀ (s pre post : List Char) (n : Nat), countOcc pat post = 0 →
      findSplit pat s = some (pre, post) →
      replaceN pat repl (n + 1) s = pre ++ repl ++ post := by
  intro s
  induction s with
  | nil =>
    intro pre post n h1 h2
    simp [findSplit] at h2
  | cons c rest ih =>
    intro pre post n h1 h2
    simp only [findSplit] at h2
    by_cases g : pat ≠ [] ∧ pat <+: (c :: rest)
    · rw [if_pos g] at h2
      simp only [Option.some.injEq, Prod.mk.injEq] at h2
      obtain ⟨h3, h4⟩ := h2
      subst h3
      subst h4
      simp only [replaceN]
      rw [if_pos g, replaceN_of_countOcc_zero pat repl _ n h1]
      simp
    · rw [if_neg g] at h2
      cases hfs : findSplit pat rest with
      | none =>
        rw [hfs] at h2
        simp at h2
      | some pp =>
        obtain ⟨pre', post'⟩ := pp
        rw [hfs] at h2
        simp only [Option.some.injEq, Prod.mk.injEq] at h2
        obtain ⟨h3, h4⟩ := h2
        subst h3
        subst h4
        simp only [replaceN]
        rw [if_neg g, ih pre' post' n h1 hfs]
        simp

/-- A pattern with a positive occurrence count has a first occurrence. -/
theorem findSplit_isSome_of_countOcc_ne_zero (pat : List Char) :
    ∀ (s : List Char), countOcc pat s ≠ 0 →
      ∃ pre post, findSplit pat s = some (pre, post) := by
  intro s
  induction s with
  | nil =>
    intro h
    simp [countOcc] at h
  | cons c rest ih =>
    intro h
    simp only [countOcc] at h
    by_cases g : pat ≠ [] ∧ pat <+: (c :: rest)
    · refine ⟨[], (c :: rest).drop pat.length, ?_⟩
      simp only [findSplit]
      rw [if_pos g]
    · rw [if_neg g] at h
      obtain ⟨pre, post, hfs⟩ := ih h
      refine ⟨c :: pre, post, ?_⟩
      simp only [findSplit]
      rw [if_neg g, hfs]

end IOStorM

namespace IOStorM

/-- `ExistConditionPatcher.__init__` with all defaults derives, for each
registered DDL class, exactly the patcher state recorded in
`DDLElement.patcher`: the variant from the class-name substring test, and
method / search string / replacement mechanically from the camel-case split of
the class name. -/
theorem patcher_init_eq (e : DDLElement) :
    ExistConditionPatcher.init e.className Option.none [] [] [] = PyResult.ok e.patcher := by
  cases e
  case createTable =>
    have hd : containsSub "Drop".data "CreateTable".data = false := by decide
    have hc : containsSub "Create".data "CreateTable".data = true := by decide
    simp [ExistConditionPatcher.init, DDLElement.className, DDLElement.patcher, hd, hc,
      split_camel_case, isAsciiUpper, isAsciiLower, pyJoinChars, pyToUpper, pyToLower,
      ConditionVariants.value]
  case createIndex =>
    have hd : containsSub "Drop".data "CreateIndex".data = false := by decide
    have hc : containsSub "Create".data "CreateIndex".data = true := by decide
    simp [ExistConditionPatcher.init, DDLElement.className, DDLElement.patcher, hd, hc,
      split_camel_case, isAsciiUpper, isAsciiLower, pyJoinChars, pyToUpper, pyToLower,
      ConditionVariants.value]
  case createSchema =>
    have hd : containsSub "Drop".data "CreateSchema".data = false := by decide
    have hc : containsSub "Create".data "CreateSchema".data = true := by decide
    simp [ExistConditionPatcher.init, DDLElement.className, DDLElement.patcher, hd, hc,
      split_camel_case, isAsciiUpper, isAsciiLower, pyJoinChars, pyToUpper, pyToLower,
      ConditionVariants.value]
  case dropTable =>
    have hd : containsSub "Drop".data "DropTable".data = true := by decide
    simp [ExistConditionPatcher.init, DDLElement.className, DDLElement.patcher, hd,
      split_camel_case, isAsciiUpper, isAsciiLower, pyJoinChars, pyToUpper, pyToLower,
      ConditionVariants.value]
  case dropIndex =>
    have hd : containsSub "Drop".data "DropIndex".data = true := by decide
    simp [ExistConditionPatcher.init, DDLElement.className, DDLElement.patcher, hd,
      split_camel_case, isAsciiUpper, isAsciiLower, pyJoinChars, pyToUpper, pyToLower,
      ConditionVariants.value]
  case dropSchema =>
    have hd : containsSub "Drop".data "DropSchema".data = true := by decide
    simp [ExistConditionPatcher.init, DDLElement.className, DDLElement.patcher, hd,
      split_camel_case, isAsciiUpper, isAsciiLower, pyJoinChars, pyToUpper, pyToLower,
      ConditionVariants.value]

end IOStorM

namespace IOStorM

/-- C4: for every registered DDL statement kind compiled with the
build-condition flag set, compilation starts from the normal unconditional SQL
text `out` and, when the mechanically derived keyword phrase occurs exactly
once in it, performs exactly one textual substitution: the phrase is replaced
by the phrase followed by " IF NOT EXISTS" (create kinds) or " IF EXISTS"
(drop kinds), and no other part of the text changes. -/
theorem ddl_patch_single_substitution (e : DDLElement) (out pre post : List Char)
    (h1 : countOcc e.patcher.regex out = 1)
    (h2 : findSplit e.patcher.regex out = some (pre, post)) :
    ExistConditionPatcher.init e.className Option.none [] [] [] = PyResult.ok e.patcher
    ∧ e.patcher.condition = e.patcher.regex ++ e.patcher.variant.suffixText
    ∧ out = pre ++ e.patcher.regex ++ post
    ∧ create_patch_compile e.patcher false true out = pre ++ e.patcher.condition ++ post := by
  refine ⟨patcher_init_eq e, ?_, findSplit_decomp _ out pre post h2, ?_⟩
  · cases e <;> rfl
  · have hz := countOcc_post_zero _ out pre post h1 h2
    have hr := replaceN_succ_findSplit e.patcher.regex e.patcher.condition out pre post 15 hz h2
    simpa [create_patch_compile, inject_condition] using hr

/-- C4 witness: the substitution specification applied to the compiled text of
a concrete CREATE TABLE statement. -/
theorem ddl_patch_single_substitution_witness :
    countOcc "CREATE TABLE".data "CREATE TABLE t (x TEXT)".data = 1
    ∧ findSplit "CREATE TABLE".data "CREATE TABLE t (x TEXT)".data
      = some ([], " t (x TEXT)".data)
    ∧ create_patch_compile DDLElement.createTable.patcher false true
        "CREATE TABLE t (x TEXT)".data
      = "CREATE TABLE IF NOT EXISTS t (x TEXT)".data := by
  have h1 : countOcc "CREATE TABLE".data "CREATE TABLE t (x TEXT)".data = 1 := by
    simp [countOcc]
  have h2 : findSplit "CREATE TABLE".data "CREATE TABLE t (x TEXT)".data
      = some ([], " t (x TEXT)".data) := by
    simp [findSplit]
  refine ⟨h1, h2, ?_⟩
  have h := (ddl_patch_single_substitution DDLElement.createTable
    "CREATE TABLE t (x TEXT)".data [] " t (x TEXT)".data h1 h2).2.2.2
  simpa using h

/-- C3: compiling a CREATE TABLE statement is a pure function of the statement
(the patch never mutates the statement, each compilation re-derives the
unpatched text), so two compilations yield identical SQL text; with the flag
set the compiled text contains "IF NOT EXISTS"; with the flag unset the output
is byte-for-byte the unpatched compiler output and — the unpatched text being
free of it — never contains "IF NOT EXISTS". -/
theorem create_table_patch_idempotent (out : List Char)
    (h1 : countOcc "CREATE TABLE".data out = 1)
    (h2 : ¬("IF NOT EXISTS".data <:+: out)) :
    create_patch_compile DDLElement.createTable.patcher false true out
      = create_patch_compile DDLElement.createTable.patcher false true out
    ∧ ("IF NOT EXISTS".data <:+:
        create_patch_compile DDLElement.createTable.patcher false true out)
    ∧ create_patch_compile DDLElement.createTable.patcher false false out = out
    ∧ ¬("IF NOT EXISTS".data <:+:
        create_patch_compile DDLElement.createTable.patcher false false out) := by
  have hne : countOcc "CREATE TABLE".data out ≠ 0 := by omega
  obtain ⟨pre, post, hfs⟩ := findSplit_isSome_of_countOcc_ne_zero _ out hne
  have hz := countOcc_post_zero _ out pre post h1 hfs
  have hr := replaceN_succ_findSplit "CREATE TABLE".data
    "CREATE TABLE IF NOT EXISTS".data out pre post 15 hz hfs
  have hcompile : create_patch_compile DDLElement.createTable.patcher false true out
      = pre ++ "CREATE TABLE IF NOT EXISTS".data ++ post := by
    simpa [create_patch_compile, inject_condition, DDLElement.patcher] using hr
  refine ⟨rfl, ?_, rfl, ?_⟩
  · rw [hcompile]
    have hsub : "IF NOT EXISTS".data <:+: "CREATE TABLE IF NOT EXISTS".data := by decide
    exact hsub.trans (List.infix_append pre _ post)
  · exact h2

/-- C3 witness: the idempotency specification applied to the compiled text of a
concrete CREATE TABLE statement. -/
theorem create_table_patch_idempotent_witness :
    countOcc "CREATE TABLE".data "CREATE TABLE t (x TEXT)".data = 1
    ∧ ¬("IF NOT EXISTS".data <:+: "CREATE TABLE t (x TEXT)".data)
    ∧ ("IF NOT EXISTS".data <:+:
        create_patch_compile DDLElement.createTable.patcher false true
          "CREATE TABLE t (x TEXT)".data)
    ∧ create_patch_compile DDLElement.createTable.patcher false false
        "CREATE TABLE t (x TEXT)".data = "CREATE TABLE t (x TEXT)".data := by
  have h1 : countOcc "CREATE TABLE".data "CREATE TABLE t (x TEXT)".data = 1 := by
    simp [countOcc]
  have h2 : ¬("IF NOT EXISTS".data <:+: "CREATE TABLE t (x TEXT)".data) := by decide
  exact ⟨h1, h2, (create_table_patch_idempotent _ h1 h2).2.1,
    (create_table_patch_idempotent _ h1 h2).2.2.1⟩

end IOStorM
